import Mathlib

/-!
Verification development for the Mind-the-Gap statistics server
(`src/server/routes.ts`).  The server-side data model, the World Bank
normalizers, the freshness cache and the representation renderers are
shallowly embedded as executable Lean definitions, translated clause by
clause from the TypeScript source.  Upstream HTTP I/O is modelled by an
oracle parameter `Oracle` giving, for each (country code, indicator)
pair, the outcome of `fetch` + `response.json()`.  Epoch-millisecond
clocks (`Date.now()`) are `Nat` parameters; the ISO `lastUpdated` stamp
of a snapshot is modelled by the numeric clock value that produced it.
-/

namespace MTG

/-- A display-ready statistic (`WorldBankResponse` in the source and
`statisticSchema` in `shared/schema.ts`): formatted value, detail
sentence, optional observation year and source attribution. -/
structure Statistic where
  value : String
  detail : String
  year : Option String := none
  source : Option String := none
deriving DecidableEq, Repr

/-- One upstream observation row: `{value, date, country:{value}}`.
World Bank values are decimal numbers or null, modelled as `Option ℚ`. -/
structure Obs where
  value : Option ℚ
  date : String
  countryName : String
deriving DecidableEq, Repr

/-- Outcome of one upstream `fetch` + JSON parse: either the observation
row array `data[1]` (possibly empty or absent, modelled as a list), or a
transport/parse failure (anything the `catch` block would swallow). -/
inductive FetchOutcome where
  | rows (items : List Obs)
  | failure
deriving DecidableEq, Repr

/-- The upstream provider, as a function from (country code, indicator)
to the outcome of the HTTP round trip. -/
def Oracle := String → String → FetchOutcome

/-- `fetchWorldBankData`: returns `data[1][0]` when `data[1]` is a
nonempty array, and `null` (here `none`) otherwise; any thrown error is
caught and also resolved to `null`. -/
def fetchWorldBankData (o : Oracle) (countryCode indicator : String) : Option Obs :=
  match o countryCode indicator with
  | .rows items => items.head?
  | .failure => none

/-- `CACHE_DURATION = 24 * 60 * 60 * 1000` milliseconds (24 hours). -/
def CACHE_DURATION : Nat := 24 * 60 * 60 * 1000

/-- `countryCodeMap`: the closed location whitelist, mapping location
keys to upstream country codes. -/
def countryCodeMap : List (String × String) :=
  [("global", "WLD"), ("us", "USA"), ("uk", "GBR"), ("canada", "CAN"),
   ("france", "FRA"), ("germany", "DEU"), ("japan", "JPN"),
   ("australia", "AUS"), ("india", "IND"), ("brazil", "BRA"),
   ("mexico", "MEX"), ("south-africa", "ZAF"), ("sweden", "SWE"),
   ("norway", "NOR")]

/-- `validStats`: the closed metric whitelist. -/
def validStats : List String :=
  ["paygap", "leadership", "maternal", "healthcare", "workforce"]

/-- `statColors`: per-metric badge colors. -/
def statColors : List (String × String) :=
  [("paygap", "#5271bf"), ("leadership", "#b573c3"), ("maternal", "#fa7aab"),
   ("healthcare", "#ff9686"), ("workforce", "#ffc569")]

/-- `statColors[stat] || '#5271bf'`. -/
def statColor (stat : String) : String := (statColors.lookup stat).getD "#5271bf"

/-- `locationNames`: country code to display name. -/
def locationNames : List (String × String) :=
  [("WLD", "global"), ("USA", "US"), ("GBR", "UK"), ("CAN", "Canada"),
   ("FRA", "France"), ("DEU", "Germany"), ("JPN", "Japan"),
   ("AUS", "Australia"), ("IND", "India"), ("BRA", "Brazil"),
   ("MEX", "Mexico"), ("ZAF", "South Africa"), ("SWE", "Sweden"),
   ("NOR", "Norway")]

/-- `getLocationName`: `locationNames[code] || 'global'`. -/
def getLocationName (code : String) : String :=
  (locationNames.lookup code).getD "global"

/-- JavaScript `Math.round`: round half toward positive infinity. -/
def jsRound (q : ℚ) : Int := ⌊q + 1 / 2⌋

/-- JavaScript template interpolation of an integral number
(`x` with integer value renders as its decimal representation). -/
def intStr (n : Int) : String := toString n

/-- `getFallbackPayGap`: static backstop table, defaulting to the
`'WLD'` entry; every entry interpolates the display name of the
*requested* country code. -/
def getFallbackPayGap (countryCode : String) : Statistic :=
  let locationName := getLocationName countryCode
  let mk : String → Statistic := fun v =>
    { value := v, detail := "Gender pay gap: " ++ v ++ " (" ++ locationName ++ ")",
      source := some "World Bank / ILO" }
  if countryCode = "WLD" then mk "16%"
  else if countryCode = "USA" then mk "16%"
  else if countryCode = "GBR" then mk "14%"
  else if countryCode = "CAN" then mk "13%"
  else mk "16%"

/-- `getFallbackLeadership`. -/
def getFallbackLeadership (countryCode : String) : Statistic :=
  let locationName := getLocationName countryCode
  let mk : String → Statistic := fun v =>
    { value := v, detail := "Women in parliament: " ++ v ++ " (" ++ locationName ++ ")",
      source := some "World Bank / IPU" }
  if countryCode = "WLD" then mk "27%"
  else if countryCode = "USA" then mk "29%"
  else if countryCode = "GBR" then mk "35%"
  else if countryCode = "CAN" then mk "31%"
  else mk "27%"

/-- `getFallbackMaternalMortality`. -/
def getFallbackMaternalMortality (countryCode : String) : Statistic :=
  let locationName := getLocationName countryCode
  let mk : String → Statistic := fun v =>
    { value := v,
      detail := "Maternal mortality ratio: " ++ v ++ " per 100k live births ("
        ++ locationName ++ ")",
      source := some "WHO/UNICEF/UNFPA/World Bank" }
  if countryCode = "WLD" then mk "223"
  else if countryCode = "USA" then mk "22"
  else if countryCode = "GBR" then mk "10"
  else if countryCode = "CAN" then mk "11"
  else mk "223"

/-- `getFallbackContraceptiveAccess`: entries differ in wording. -/
def getFallbackContraceptiveAccess (countryCode : String) : Statistic :=
  let locationName := getLocationName countryCode
  let src := some "World Bank / UN Population Division"
  if countryCode = "WLD" then
    { value := "218M",
      detail := "Women without modern contraception access: 218M (" ++ locationName ++ ")",
      source := src }
  else if countryCode = "USA" then
    { value := "19M",
      detail := "Women in contraceptive deserts: 19M (" ++ locationName ++ ")",
      source := src }
  else if countryCode = "GBR" then
    { value := "92%",
      detail := "Contraceptive access rate: 92% (" ++ locationName ++ ")",
      source := src }
  else if countryCode = "CAN" then
    { value := "88%",
      detail := "Contraceptive access rate: 88% (" ++ locationName ++ ")",
      source := src }
  else
    { value := "218M",
      detail := "Women without modern contraception access: 218M (" ++ locationName ++ ")",
      source := src }

/-- `getFallbackWorkforceParticipation`: the global entry omits the
location name from its detail sentence. -/
def getFallbackWorkforceParticipation (countryCode : String) : Statistic :=
  let locationName := getLocationName countryCode
  let src := some "World Bank / ILO"
  if countryCode = "WLD" then
    { value := "47%", detail := "Women in global workforce: 47%", source := src }
  else if countryCode = "USA" then
    { value := "57%", detail := "Women in workforce: 57% (" ++ locationName ++ ")",
      source := src }
  else if countryCode = "GBR" then
    { value := "56%", detail := "Women in workforce: 56% (" ++ locationName ++ ")",
      source := src }
  else if countryCode = "CAN" then
    { value := "61%", detail := "Women in workforce: 61% (" ++ locationName ++ ")",
      source := src }
  else
    { value := "47%", detail := "Women in global workforce: 47%", source := src }

/-- `getPayGap`: normalizer for the pay-gap metric.  Presence of the
upstream value is tested by JavaScript truthiness (`data && data.value`),
so a null value and the number 0 both delegate to the fallback. -/
def getPayGap (o : Oracle) (countryCode : String) : Statistic :=
  match fetchWorldBankData o countryCode "SL.EMP.WORK.FE.WE.ZS" with
  | some data =>
    match data.value with
    | some ratio =>
      if ratio ≠ 0 then
        let gap : ℚ := 100 - ratio
        { value := intStr (jsRound gap) ++ "%",
          detail := "Gender pay gap: " ++ intStr (jsRound gap) ++ "% ("
            ++ getLocationName countryCode ++ ")",
          year := some data.date,
          source := some "World Bank / ILO" }
      else getFallbackPayGap countryCode
    | none => getFallbackPayGap countryCode
  | none => getFallbackPayGap countryCode

/-- `getLeadership`. -/
def getLeadership (o : Oracle) (countryCode : String) : Statistic :=
  match fetchWorldBankData o countryCode "SG.GEN.PARL.ZS" with
  | some data =>
    match data.value with
    | some v =>
      if v ≠ 0 then
        { value := intStr (jsRound v) ++ "%",
          detail := "Women in parliament: " ++ intStr (jsRound v) ++ "% ("
            ++ getLocationName countryCode ++ ")",
          year := some data.date,
          source := some "World Bank / IPU" }
      else getFallbackLeadership countryCode
    | none => getFallbackLeadership countryCode
  | none => getFallbackLeadership countryCode

/-- `getMaternalMortality`. -/
def getMaternalMortality (o : Oracle) (countryCode : String) : Statistic :=
  match fetchWorldBankData o countryCode "SH.STA.MMRT" with
  | some data =>
    match data.value with
    | some v =>
      if v ≠ 0 then
        { value := intStr (jsRound v),
          detail := "Maternal mortality ratio: " ++ intStr (jsRound v)
            ++ " per 100k live births (" ++ getLocationName countryCode ++ ")",
          year := some data.date,
          source := some "WHO/UNICEF/UNFPA/World Bank" }
      else getFallbackMaternalMortality countryCode
    | none => getFallbackMaternalMortality countryCode
  | none => getFallbackMaternalMortality countryCode

/-- `getContraceptiveAccess`. -/
def getContraceptiveAccess (o : Oracle) (countryCode : String) : Statistic :=
  match fetchWorldBankData o countryCode "SP.DYN.CONM.ZS" with
  | some data =>
    match data.value with
    | some v =>
      if v ≠ 0 then
        { value := intStr (jsRound v) ++ "%",
          detail := "Contraceptive access rate: " ++ intStr (jsRound v) ++ "% ("
            ++ getLocationName countryCode ++ ")",
          year := some data.date,
          source := some "World Bank / UN Population Division" }
      else getFallbackContraceptiveAccess countryCode
    | none => getFallbackContraceptiveAccess countryCode
  | none => getFallbackContraceptiveAccess countryCode

/-- `getWorkforceParticipation`. -/
def getWorkforceParticipation (o : Oracle) (countryCode : String) : Statistic :=
  match fetchWorldBankData o countryCode "SL.TLF.TOTL.FE.ZS" with
  | some data =>
    match data.value with
    | some v =>
      if v ≠ 0 then
        { value := intStr (jsRound v) ++ "%",
          detail := "Women in workforce: " ++ intStr (jsRound v) ++ "% ("
            ++ getLocationName countryCode ++ ")",
          year := some data.date,
          source := some "World Bank / ILO" }
      else getFallbackWorkforceParticipation countryCode
    | none => getFallbackWorkforceParticipation countryCode
  | none => getFallbackWorkforceParticipation countryCode

/-- A snapshot (`stats` object): one `Statistic` per metric key plus the
`lastUpdated` stamp (the clock value at assembly time). -/
structure AllStats where
  paygap : Statistic
  leadership : Statistic
  maternal : Statistic
  healthcare : Statistic
  workforce : Statistic
  lastUpdated : Nat
deriving DecidableEq, Repr

/-- The aggregate statistics builder: the five normalizer calls of the
`Promise.all` block plus the `lastUpdated` stamp. -/
def buildAllStats (o : Oracle) (countryCode : String) (now : Nat) : AllStats :=
  { paygap := getPayGap o countryCode,
    leadership := getLeadership o countryCode,
    maternal := getMaternalMortality o countryCode,
    healthcare := getContraceptiveAccess o countryCode,
    workforce := getWorkforceParticipation o countryCode,
    lastUpdated := now }

/-- A cache entry: `{data, timestamp}`. -/
structure CacheEntry where
  data : AllStats
  timestamp : Nat
deriving DecidableEq, Repr

/-- The process-wide stats cache, keyed by strings such as
`"stats_" ++ location`. -/
def Cache := String → Option CacheEntry

/-- The initial empty cache (`const cache = {}`). -/
def emptyCache : Cache := fun _ => none

/-- Store an entry under a key, overwriting any previous entry. -/
def cachePut (c : Cache) (k : String) (e : CacheEntry) : Cache :=
  fun q => if q = k then some e else c q

/-- `statsField`: `stats[stat]` restricted to the five metric keys; any
other key (including `lastUpdated`, whose value is a string) leads to
the `!data || typeof data === 'string'` not-found branch, modelled as
`none`. -/
def statsField (s : AllStats) (stat : String) : Option Statistic :=
  if stat = "paygap" then some s.paygap
  else if stat = "leadership" then some s.leadership
  else if stat = "maternal" then some s.maternal
  else if stat = "healthcare" then some s.healthcare
  else if stat = "workforce" then some s.workforce
  else none

/-- The check-cache / fetch-and-store block shared verbatim by the
stats, export, share and badge handlers: on a fresh hit return the
cached snapshot unchanged, otherwise build a snapshot and overwrite the
entry.  The boolean records whether the upstream fetch path ran. -/
def getOrFetchStats (c : Cache) (now : Nat) (o : Oracle) (cacheKey countryCode : String) :
    AllStats × Cache × Bool :=
  match c cacheKey with
  | some cached =>
    if now - cached.timestamp < CACHE_DURATION then (cached.data, c, false)
    else
      let stats := buildAllStats o countryCode now
      (stats, cachePut c cacheKey ⟨stats, now⟩, true)
  | none =>
    let stats := buildAllStats o countryCode now
    (stats, cachePut c cacheKey ⟨stats, now⟩, true)

/-- Result of the `/api/stats/:country` handler: the JSON payload, the
cache after the request, and whether an upstream fetch happened. -/
structure StatsResult where
  response : AllStats
  cache : Cache
  fetched : Bool

/-- `/api/stats/:country` handler. -/
def statsHandler (c : Cache) (now : Nat) (o : Oracle) (country : String) : StatsResult :=
  let location := if country = "" then "global" else country
  let cacheKey := "stats_" ++ location
  let countryCode := (countryCodeMap.lookup location).getD "WLD"
  let r := getOrFetchStats c now o cacheKey countryCode
  ⟨r.1, r.2.1, r.2.2⟩

/-- The apostrophe character (code point 39). -/
def aposChar : Char := Char.ofNat 39

/-- Global single-character replacement, the semantics of JavaScript
`String.prototype.replace` with a `/c/g` pattern: each occurrence of `c`
in the input is replaced by `rep`; replacements are not rescanned. -/
def replaceAllChar (c : Char) (rep : List Char) : List Char → List Char
  | [] => []
  | x :: xs => if x = c then rep ++ replaceAllChar c rep xs else x :: replaceAllChar c rep xs

/-- `escapeSvgText` on character lists: the five sequential global
replacements of the source, ampersand first. -/
def escapeSvgTextL (l : List Char) : List Char :=
  replaceAllChar aposChar "&apos;".data
    (replaceAllChar '"' "&quot;".data
      (replaceAllChar '>' "&gt;".data
        (replaceAllChar '<' "&lt;".data
          (replaceAllChar '&' "&amp;".data l))))

/-- `escapeSvgText`: escape markup-special characters in text content. -/
def escapeSvgText (s : String) : String := ⟨escapeSvgTextL s.data⟩

/-- Single-location badge markup before the detail interpolation point
(the template of the `/api/badge` handler after `.trim()`). -/
def badgeTplA : String :=
  "<svg width=\"500\" height=\"80\" xmlns=\"http://www.w3.org/2000/svg\">\n          <rect width=\"500\" height=\"80\" fill=\""

/-- Badge markup between the color and the detail interpolation. -/
def badgeTplB : String :=
  "\" rx=\"6\"/>\n          <text x=\"20\" y=\"30\" font-family=\"Inter, sans-serif\" font-size=\"12\" font-weight=\"600\" fill=\"rgba(255,255,255,0.9)\">MIND THE GAP</text>\n          <text x=\"20\" y=\"55\" font-family=\"Inter, sans-serif\" font-size=\"16\" font-weight=\"700\" fill=\"white\">"

/-- Badge markup between the detail and the value interpolation. -/
def badgeTplC : String :=
  "</text>\n          <text x=\"450\" y=\"55\" font-family=\"JetBrains Mono, monospace\" font-size=\"32\" font-weight=\"700\" fill=\"white\" text-anchor=\"end\">"

/-- Badge markup after the value interpolation. -/
def badgeTplD : String := "</text>\n        </svg>"

/-- The badge template with its three interpolation slots filled. -/
def badgeSvg (color detailEsc valueEsc : String) : String :=
  badgeTplA ++ color ++ badgeTplB ++ detailEsc ++ badgeTplC ++ valueEsc ++ badgeTplD

/-- The single-location badge renderer: escapes the statistic fields
with `escapeSvgText`, then interpolates them into the template. -/
def renderBadge (color : String) (d : Statistic) : String :=
  badgeSvg color (escapeSvgText d.detail) (escapeSvgText d.value)

/-- Result of a badge request: HTTP status, `Cache-Control` header,
response body, cache after the request, and whether a fetch happened. -/
structure BadgeResult where
  status : Nat
  cacheControl : String
  body : String
  cache : Cache
  fetched : Bool

/-- `/api/badge/:stat/:country` handler: whitelist validation of both
parameters before any cache or upstream work, then the shared
get-or-fetch block and the badge renderer. -/
def badgeHandler (c : Cache) (now : Nat) (o : Oracle) (stat country : String) : BadgeResult :=
  if validStats.contains stat = false then
    ⟨400, "public, max-age=86400", "Invalid stat type", c, false⟩
  else
    let location := if country = "" then "global" else country
    match countryCodeMap.lookup location with
    | none => ⟨400, "public, max-age=86400", "Invalid country", c, false⟩
    | some countryCode =>
      let r := getOrFetchStats c now o ("stats_" ++ location) countryCode
      match statsField r.1 stat with
      | none => ⟨404, "public, max-age=86400", "Stat not found", r.2.1, r.2.2⟩
      | some data =>
        ⟨200, "public, max-age=86400", renderBadge (statColor stat) data, r.2.1, r.2.2⟩

/-- Result of a PNG badge or comparison badge request (body omitted). -/
structure PngResult where
  status : Nat
  cacheControl : String
  cache : Cache
  fetched : Bool

/-- `/api/badge-png/:stat/:country` handler: identical validation and
markup to the SVG handler; rasterization (`sharp`) is an external
capability modelled as a function that may fail, and its failure is the
internal-error path of the surrounding catch block. -/
def badgePngHandler (c : Cache) (now : Nat) (o : Oracle)
    (rasterize : String → Option (List Nat)) (stat country : String) : PngResult :=
  if validStats.contains stat = false then ⟨400, "public, max-age=86400", c, false⟩
  else
    let location := if country = "" then "global" else country
    match countryCodeMap.lookup location with
    | none => ⟨400, "public, max-age=86400", c, false⟩
    | some countryCode =>
      let r := getOrFetchStats c now o ("stats_" ++ location) countryCode
      match statsField r.1 stat with
      | none => ⟨404, "public, max-age=86400", r.2.1, r.2.2⟩
      | some data =>
        match rasterize (renderBadge (statColor stat) data) with
        | some _ => ⟨200, "public, max-age=86400", r.2.1, r.2.2⟩
        | none => ⟨500, "public, max-age=3600", r.2.1, r.2.2⟩

/-- Result of a share-card request (SVG body omitted: no claim
constrains the share markup itself). -/
structure ShareResult where
  status : Nat
  cache : Cache
  fetched : Bool

/-- `/api/share/:stat/:country` handler: note there is no whitelist
validation; the location falls back to `'WLD'` for fetching while the
cache key still uses the raw location string, and an unknown stat key
reaches the not-found branch only after the get-or-fetch block ran. -/
def shareHandler (c : Cache) (now : Nat) (o : Oracle) (stat country : String) : ShareResult :=
  let location := if country = "" then "global" else country
  let countryCode := (countryCodeMap.lookup location).getD "WLD"
  let r := getOrFetchStats c now o ("stats_" ++ location) countryCode
  match statsField r.1 stat with
  | none => ⟨404, r.2.1, r.2.2⟩
  | some _ => ⟨200, r.2.1, r.2.2⟩

/-- `countryCodeMap` of the comparison-badge build variant (five
locations). -/
def countryCodeMapCmp : List (String × String) :=
  [("global", "WLD"), ("us", "USA"), ("uk", "GBR"), ("canada", "CAN"), ("mexico", "MEX")]

/-- `/api/badge/:stat/:country1/:country2` handler of the
comparison-badge build: whitelist validation of the stat and of both
locations before any cache or upstream work, then two get-or-fetch
blocks (body omitted). -/
def compareBadgeHandler (c : Cache) (now : Nat) (o : Oracle)
    (stat country1 country2 : String) : PngResult :=
  if validStats.contains stat = false then ⟨400, "public, max-age=86400", c, false⟩
  else
    let location1 := if country1 = "" then "global" else country1
    let location2 := if country2 = "" then "global" else country2
    match countryCodeMapCmp.lookup location1, countryCodeMapCmp.lookup location2 with
    | some code1, some code2 =>
      let r1 := getOrFetchStats c now o ("stats_" ++ location1) code1
      let r2 := getOrFetchStats r1.2.1 now o ("stats_" ++ location2) code2
      match statsField r1.1 stat, statsField r2.1 stat with
      | some _, some _ => ⟨200, "public, max-age=86400", r2.2.1, r1.2.2 || r2.2.2⟩
      | _, _ => ⟨404, "public, max-age=86400", r2.2.1, r1.2.2 || r2.2.2⟩
    | _, _ => ⟨400, "public, max-age=86400", c, false⟩

/-- CSV header row. -/
def csvHeader : String := "Metric,Value,Detail,Year,Source"

/-- One CSV data row: the detail field is wrapped in double quotes;
value, year and source are interpolated bare; absent year or source
renders as the empty string. -/
def csvRow (name : String) (st : Statistic) : String :=
  name ++ "," ++ st.value ++ ",\"" ++ st.detail ++ "\"," ++ st.year.getD ""
    ++ "," ++ st.source.getD ""

/-- The six CSV lines in the fixed metric order of the source. -/
def csvLines (s : AllStats) : List String :=
  [csvHeader,
   csvRow "Gender Pay Gap" s.paygap,
   csvRow "Leadership Representation" s.leadership,
   csvRow "Maternal Mortality" s.maternal,
   csvRow "Contraceptive Access" s.healthcare,
   csvRow "Workforce Participation" s.workforce]

/-- `Array.prototype.join('\n')`. -/
def joinLines : List String → String
  | [] => ""
  | [x] => x
  | x :: y :: xs => x ++ "\n" ++ joinLines (y :: xs)

/-- The CSV export of a snapshot. -/
def exportCsv (s : AllStats) : String := joinLines (csvLines s)

/-- Body of an export response. -/
inductive ExportBody where
  | csv (text : String)
  | json (stats : AllStats)
deriving DecidableEq, Repr

/-- Result of an export request. -/
structure ExportResult where
  status : Nat
  body : ExportBody
  cache : Cache
  fetched : Bool

/-- `/api/export/:country` handler: no whitelist validation; unknown
locations fall back to `'WLD'` for fetching while the cache key uses the
raw country string. -/
def exportHandler (c : Cache) (now : Nat) (o : Oracle) (country format : String) :
    ExportResult :=
  let country' := if country = "" then "global" else country
  let countryCode := (countryCodeMap.lookup country').getD "WLD"
  let r := getOrFetchStats c now o ("stats_" ++ country') countryCode
  if format = "csv" then ⟨200, .csv (exportCsv r.1), r.2.1, r.2.2⟩
  else ⟨200, .json r.1, r.2.1, r.2.2⟩

/-- One point of a trend series. -/
structure TrendPoint where
  year : String
  value : ℚ
  countryName : String
deriving DecidableEq, Repr

/-- JavaScript `parseInt` on decimal strings: skip leading whitespace,
accept an optional sign, read leading decimal digits ignoring trailing
characters; no digit gives NaN (`none`).  (Hexadecimal-prefix handling
is irrelevant here: the parsed strings are observation years.) -/
def parseIntJS (s : String) : Option Int :=
  let digitsOf : List Char → Option Nat := fun ds =>
    let digits := ds.takeWhile (fun c => c.isDigit)
    if digits.isEmpty then none
    else some (digits.foldl (fun acc c => 10 * acc + (c.toNat - 48)) 0)
  match s.data.dropWhile (fun c => c.isWhitespace) with
  | '-' :: rest => (digitsOf rest).map (fun n => -(n : Int))
  | '+' :: rest => (digitsOf rest).map (fun n => (n : Int))
  | l => (digitsOf l).map (fun n => (n : Int))

/-- The sort key of the trend comparator `parseInt(a.year) - parseInt(b.year)`. -/
def trendKey (p : TrendPoint) : Int := (parseIntJS p.year).getD 0

/-- The push performed for one upstream row: skipped when `item.value`
is null, otherwise `{year: item.date, value: Math.round(v*100)/100,
countryName: item.country.value}`. -/
def mkTrendPoint (item : Obs) : Option TrendPoint :=
  item.value.map (fun v => ⟨item.date, (jsRound (v * 100) : ℚ) / 100, item.countryName⟩)

/-- The trend-series builder: drop null-valued rows, then sort
ascending by the parsed year (a stable sort with the source's
comparator). -/
def buildTrendData (rows : List Obs) : List TrendPoint :=
  (rows.filterMap mkTrendPoint).mergeSort (fun a b => decide (trendKey a ≤ trendKey b))

/-! ### CSV parsing (specification side)

A minimal CSV reader used to state the round-trip property: fields are
separated by commas, a double quote toggles quoted mode in which commas
are literal.  This is the reader a consumer of the export would use. -/

mutual

/-- Scan a CSV record outside quotes, accumulating the current field. -/
def parseRowAux : List Char → List Char → List (List Char)
  | [], acc => [acc.reverse]
  | c :: rest, acc =>
    if c = ',' then acc.reverse :: parseRowAux rest []
    else if c = '"' then parseQuoted rest acc
    else parseRowAux rest (c :: acc)

/-- Scan the inside of a quoted CSV section. -/
def parseQuoted : List Char → List Char → List (List Char)
  | [], acc => [acc.reverse]
  | c :: rest, acc =>
    if c = '"' then parseRowAux rest acc
    else parseQuoted rest (c :: acc)

end

/-- Parse one CSV record into its fields. -/
def parseFields (l : List Char) : List (List Char) := parseRowAux l []

/-- Split a character list on a separator character. -/
def splitOnChar (c : Char) : List Char → List (List Char)
  | [] => [[]]
  | x :: xs =>
    if x = c then [] :: splitOnChar c xs
    else
      match splitOnChar c xs with
      | [] => [[x]]
      | h :: t => (x :: h) :: t

/-- Parse a CSV document: split into lines, parse each record. -/
def csvParse (l : List Char) : List (List (List Char)) :=
  (splitOnChar '\n' l).map parseFields

/-! ### SVG text-content safety -/

/-- Decides that a piece of markup text content is injection-safe: the
four raw characters `<ANGLE> quote apostrophe` never occur, and every
ampersand begins one of the five entities `&amp; &lt; &gt; &quot;
&apos;`. -/
def svgEscapedOk : List Char → Bool
  | [] => true
  | c :: rest =>
    if c = '&' then
      if ("amp;".data).isPrefixOf rest then svgEscapedOk (rest.drop 4)
      else if ("lt;".data).isPrefixOf rest then svgEscapedOk (rest.drop 3)
      else if ("gt;".data).isPrefixOf rest then svgEscapedOk (rest.drop 3)
      else if ("quot;".data).isPrefixOf rest then svgEscapedOk (rest.drop 5)
      else if ("apos;".data).isPrefixOf rest then svgEscapedOk (rest.drop 5)
      else false
    else if c = '<' ∨ c = '>' ∨ c = '"' ∨ c = aposChar then false
    else svgEscapedOk rest
termination_by l => l.length
decreasing_by all_goals (simp [List.length_drop]; try omega)

/-- The per-character expansion performed by the five escape passes. -/
def escChar (c : Char) : List Char :=
  if c = '&' then "&amp;".data
  else if c = '<' then "&lt;".data
  else if c = '>' then "&gt;".data
  else if c = '"' then "&quot;".data
  else if c = aposChar then "&apos;".data
  else [c]

/-- A CSV field interpolated bare is recovered exactly when it contains
no comma, double quote or newline. -/
def csvPlainOk (s : String) : Bool :=
  s.data.all (fun ch => decide (ch ≠ ',' ∧ ch ≠ '"' ∧ ch ≠ '\n'))

/-- The quoted detail field is recovered exactly when it contains no
double quote or newline (commas are fine: that is what the quoting is
for). -/
def csvDetailOk (s : String) : Bool :=
  s.data.all (fun ch => decide (ch ≠ '"' ∧ ch ≠ '\n'))

/-- Per-statistic side condition for the CSV round trip. -/
def csvStatOk (st : Statistic) : Bool :=
  csvPlainOk st.value && csvDetailOk st.detail
    && csvPlainOk (st.year.getD "") && csvPlainOk (st.source.getD "")

/-- Per-snapshot side condition for the CSV round trip. -/
def csvStatsOk (s : AllStats) : Bool :=
  csvStatOk s.paygap && csvStatOk s.leadership && csvStatOk s.maternal
    && csvStatOk s.healthcare && csvStatOk s.workforce

/-! ### Concrete fixtures used by witnesses and counterexamples -/

/-- An upstream that always fails (transport error). -/
def oracleFail : Oracle := fun _ _ => .failure

/-- A present observation whose numeric value is 0. -/
def obsZero : Obs := { value := some 0, date := "2021", countryName := "World" }

/-- An upstream that always returns the zero-valued observation. -/
def oracleZero : Oracle := fun _ _ => .rows [obsZero]

/-- A present observation with value 54. -/
def obs54 : Obs := { value := some 54, date := "2023", countryName := "United States" }

/-- An upstream that always returns the value-54 observation. -/
def oracle54 : Oracle := fun _ _ => .rows [obs54]

/-- The global snapshot assembled at clock 0 from the failing upstream
(all fallback values). -/
def snapG : AllStats := buildAllStats oracleFail "WLD" 0

/-- A cache holding the global snapshot stored at clock 0. -/
def cacheG : Cache := cachePut emptyCache "stats_global" ⟨snapG, 0⟩

/-- A rasterizer that always fails. -/
def rasterFailAll : String → Option (List Nat) := fun _ => none

/-- A rasterizer that always succeeds. -/
def rasterOkAll : String → Option (List Nat) := fun _ => some []

/-- A statistic whose value field contains a comma. -/
def badStat : Statistic :=
  { value := "1,6", detail := "Gender pay gap: 1,6 (global)",
    year := some "2023", source := some "World Bank / ILO" }

/-- A snapshot whose pay-gap value contains a comma. -/
def badSnap : AllStats :=
  { paygap := badStat,
    leadership := getFallbackLeadership "WLD",
    maternal := getFallbackMaternalMortality "WLD",
    healthcare := getFallbackContraceptiveAccess "WLD",
    workforce := getFallbackWorkforceParticipation "WLD",
    lastUpdated := 0 }

theorem replaceAllChar_append (c : Char) (rep a b : List Char) :
    replaceAllChar c rep (a ++ b) = replaceAllChar c rep a ++ replaceAllChar c rep b := by
  induction a with
  | nil => rfl
  | cons x xs ih =>
    by_cases h : x = c <;> simp [replaceAllChar, h, ih]

theorem escapeSvgTextL_cons (x : Char) (xs : List Char) :
    escapeSvgTextL (x :: xs) = escChar x ++ escapeSvgTextL xs := by
  simp only [escapeSvgTextL, escChar]
  by_cases h1 : x = '&'
  · subst h1
    simp +decide [replaceAllChar, replaceAllChar_append]
  by_cases h2 : x = '<'
  · subst h2
    simp +decide [replaceAllChar, replaceAllChar_append, h1]
  by_cases h3 : x = '>'
  · subst h3
    simp +decide [replaceAllChar, replaceAllChar_append, h1, h2]
  by_cases h4 : x = '"'
  · subst h4
    simp +decide [replaceAllChar, replaceAllChar_append, h1, h2, h3]
  by_cases h5 : x = aposChar
  · subst h5
    simp +decide [replaceAllChar, replaceAllChar_append, h1, h2, h3, h4]
  · simp [replaceAllChar, h1, h2, h3, h4, h5]

theorem svgEscapedOk_escape (l : List Char) : svgEscapedOk (escapeSvgTextL l) = true := by
  induction l with
  | nil => simp [escapeSvgTextL, replaceAllChar, svgEscapedOk]
  | cons x xs ih =>
    rw [escapeSvgTextL_cons]
    by_cases h1 : x = '&'
    · subst h1
      simpa +decide [escChar, svgEscapedOk, List.isPrefixOf] using ih
    by_cases h2 : x = '<'
    · subst h2
      simpa +decide [escChar, svgEscapedOk, List.isPrefixOf, h1] using ih
    by_cases h3 : x = '>'
    · subst h3
      simpa +decide [escChar, svgEscapedOk, List.isPrefixOf, h1, h2] using ih
    by_cases h4 : x = '"'
    · subst h4
      simpa +decide [escChar, svgEscapedOk, List.isPrefixOf, h1, h2, h3] using ih
    by_cases h5 : x = aposChar
    · subst h5
      simpa +decide [escChar, svgEscapedOk, List.isPrefixOf, h1, h2, h3, h4] using ih
    · simpa [escChar, svgEscapedOk, h1, h2, h3, h4, h5] using ih

/-! ### Freshness-cache lemmas -/

theorem getOrFetchStats_hit (c : Cache) (now : Nat) (o : Oracle) (key code : String)
    (e : CacheEntry) (he : c key = some e)
    (hfresh : now - e.timestamp < CACHE_DURATION) :
    getOrFetchStats c now o key code = (e.data, c, false) := by
  simp [getOrFetchStats, he, hfresh]

theorem getOrFetchStats_miss (c : Cache) (now : Nat) (o : Oracle) (key code : String)
    (hmiss : ∀ e, c key = some e → CACHE_DURATION ≤ now - e.timestamp) :
    getOrFetchStats c now o key code
      = (buildAllStats o code now,
         cachePut c key ⟨buildAllStats o code now, now⟩, true) := by
  cases hc : c key with
  | none => simp [getOrFetchStats, hc]
  | some e => simp [getOrFetchStats, hc, Nat.not_lt.mpr (hmiss e hc)]

theorem cachePut_self (c : Cache) (k : String) (e : CacheEntry) :
    cachePut c k e k = some e := by
  simp [cachePut]

/-- C1: within the 24-hour freshness window the stats-retrieval path
returns exactly the cached snapshot (same `Statistic` values, same
`lastUpdated`) with no upstream fetch and no cache write; with the entry
absent or at least 24 hours old it builds a snapshot stamped with the
current clock and stores it under the location's key, overwriting. -/
theorem c1_freshness_cache (c : Cache) (now : Nat) (o : Oracle) (loc : String)
    (hloc : loc ≠ "") :
    (∀ e, c ("stats_" ++ loc) = some e → now - e.timestamp < CACHE_DURATION →
      statsHandler c now o loc = ⟨e.data, c, false⟩) ∧
    ((∀ e, c ("stats_" ++ loc) = some e → CACHE_DURATION ≤ now - e.timestamp) →
      (statsHandler c now o loc).fetched = true ∧
      (statsHandler c now o loc).response
        = buildAllStats o ((countryCodeMap.lookup loc).getD "WLD") now ∧
      (statsHandler c now o loc).response.lastUpdated = now ∧
      (statsHandler c now o loc).cache ("stats_" ++ loc)
        = some ⟨(statsHandler c now o loc).response, now⟩) := by
  constructor
  · intro e he hfresh
    simp [statsHandler, hloc, getOrFetchStats_hit c now o _ _ e he hfresh]
  · intro hmiss
    simp [statsHandler, hloc, getOrFetchStats_miss c now o _ _ hmiss,
      buildAllStats, cachePut_self]

/-- Witness for C1 at a concrete cache, clock and location: a fresh hit
returns the stored snapshot unchanged. -/
theorem c1_freshness_cache_witness :
    ("global" : String) ≠ "" ∧
    statsHandler cacheG 5 oracleFail "global" = ⟨snapG, cacheG, false⟩ := by
  refine ⟨by decide, ?_⟩
  exact (c1_freshness_cache cacheG 5 oracleFail "global" (by decide)).1
    ⟨snapG, 0⟩ (by rfl) (by decide)

/-- C3: the single-location badge renderer interpolates only
`escapeSvgText`-escaped value and detail fields into the markup, and in
the escaped fields the characters of the set ampersand, angle brackets,
double quote, apostrophe occur only as the escape entities `&amp;`
`&lt;` `&gt;` `&quot;` `&apos;` (no raw occurrence), keeping the markup
well-formed. -/
theorem c3_badge_svg_escaping (color : String) (d : Statistic) :
    renderBadge color d
      = badgeSvg color (escapeSvgText d.detail) (escapeSvgText d.value) ∧
    svgEscapedOk (escapeSvgText d.detail).data = true ∧
    svgEscapedOk (escapeSvgText d.value).data = true :=
  ⟨rfl, svgEscapedOk_escape _, svgEscapedOk_escape _⟩

theorem statsField_isSome (s : AllStats) (stat : String)
    (h : validStats.contains stat = true) : ∃ d, statsField s stat = some d := by
  simp [validStats] at h
  rcases h with h | h | h | h | h <;> subst h <;> simp [statsField]

/-- C2 counterexample: the share-card endpoint performs no location
whitelist validation; for the unknown location string `"narnia"` it
returns 200 (not a client error), runs the upstream fetch path, and
writes a cache entry, contradicting the claim for the share-card
endpoint. -/
theorem c2_whitelist_counterexample :
    (shareHandler emptyCache 0 oracleFail "paygap" "narnia").status = 200 ∧
    (shareHandler emptyCache 0 oracleFail "paygap" "narnia").fetched = true ∧
    (shareHandler emptyCache 0 oracleFail "paygap" "narnia").cache "stats_narnia"
      = some ⟨buildAllStats oracleFail "WLD" 0, 0⟩ :=
  ⟨rfl, rfl, rfl⟩

/-- C2 (amended): the badge, PNG badge and two-location comparison
badge endpoints return 400 before any upstream work and leave the cache
unchanged when the metric key is not whitelisted or a location key is
not whitelisted; the share-card endpoint (see the counterexample) has no
such validation. -/
theorem c2_amended_whitelist (c : Cache) (now : Nat) (o : Oracle)
    (raster : String → Option (List Nat)) (stat country country2 : String) :
    (validStats.contains stat = false →
      badgeHandler c now o stat country
        = ⟨400, "public, max-age=86400", "Invalid stat type", c, false⟩ ∧
      badgePngHandler c now o raster stat country
        = ⟨400, "public, max-age=86400", c, false⟩ ∧
      compareBadgeHandler c now o stat country country2
        = ⟨400, "public, max-age=86400", c, false⟩) ∧
    (validStats.contains stat = true → country ≠ "" →
      countryCodeMap.lookup country = none →
      badgeHandler c now o stat country
        = ⟨400, "public, max-age=86400", "Invalid country", c, false⟩ ∧
      badgePngHandler c now o raster stat country
        = ⟨400, "public, max-age=86400", c, false⟩) ∧
    (validStats.contains stat = true → country ≠ "" → country2 ≠ "" →
      countryCodeMapCmp.lookup country = none ∨ countryCodeMapCmp.lookup country2 = none →
      compareBadgeHandler c now o stat country country2
        = ⟨400, "public, max-age=86400", c, false⟩) := by
  refine ⟨fun hs => ?_, fun hs hc hl => ?_, fun hs hc1 hc2 hl => ?_⟩
  · have hs' : stat ∉ validStats := by simpa using hs
    refine ⟨?_, ?_, ?_⟩
    · simp [badgeHandler, hs']
    · simp [badgePngHandler, hs']
    · simp [compareBadgeHandler, hs']
  · have hs' : stat ∈ validStats := by simpa using hs
    refine ⟨?_, ?_⟩
    · simp [badgeHandler, hs', hc, hl]
    · simp [badgePngHandler, hs', hc, hl]
  · have hs' : stat ∈ validStats := by simpa using hs
    rcases hl with hl | hl
    · simp [compareBadgeHandler, hs', hc1, hc2, hl]
    · cases hl1 : countryCodeMapCmp.lookup country with
      | none => simp [compareBadgeHandler, hs', hc1, hc2, hl1]
      | some code1 => simp [compareBadgeHandler, hs', hc1, hc2, hl1, hl]

/-- Witness for the amended C2 at concrete inputs: unknown metric
`"bogus"` and unknown location `"narnia"` each give 400 with the cache
untouched. -/
theorem c2_amended_whitelist_witness :
    validStats.contains "bogus" = false ∧
    badgeHandler emptyCache 0 oracleFail "bogus" "global"
      = ⟨400, "public, max-age=86400", "Invalid stat type", emptyCache, false⟩ ∧
    validStats.contains "paygap" = true ∧ ("narnia" : String) ≠ "" ∧
    countryCodeMap.lookup "narnia" = none ∧
    badgeHandler emptyCache 0 oracleFail "paygap" "narnia"
      = ⟨400, "public, max-age=86400", "Invalid country", emptyCache, false⟩ := by
  refine ⟨by decide, ?_, by decide, by decide, by rfl, ?_⟩
  · exact ((c2_amended_whitelist emptyCache 0 oracleFail rasterOkAll
      "bogus" "global" "global").1 (by decide)).1
  · exact ((c2_amended_whitelist emptyCache 0 oracleFail rasterOkAll
      "paygap" "narnia" "global").2.1 (by decide) (by decide) (by rfl)).1

/-- C9: a present upstream observation whose numeric value is 0 is
treated as absent by every metric normalizer, because presence is tested
by JavaScript truthiness; the fallback-table statistic is returned
instead of a formatted zero. -/
theorem c9_zero_is_absent (o : Oracle) (cc : String) (data : Obs)
    (hzero : data.value = some 0) :
    (fetchWorldBankData o cc "SL.EMP.WORK.FE.WE.ZS" = some data →
      getPayGap o cc = getFallbackPayGap cc) ∧
    (fetchWorldBankData o cc "SG.GEN.PARL.ZS" = some data →
      getLeadership o cc = getFallbackLeadership cc) ∧
    (fetchWorldBankData o cc "SH.STA.MMRT" = some data →
      getMaternalMortality o cc = getFallbackMaternalMortality cc) ∧
    (fetchWorldBankData o cc "SP.DYN.CONM.ZS" = some data →
      getContraceptiveAccess o cc = getFallbackContraceptiveAccess cc) ∧
    (fetchWorldBankData o cc "SL.TLF.TOTL.FE.ZS" = some data →
      getWorkforceParticipation o cc = getFallbackWorkforceParticipation cc) := by
  refine ⟨fun h => ?_, fun h => ?_, fun h => ?_, fun h => ?_, fun h => ?_⟩
  · simp [getPayGap, h, hzero]
  · simp [getLeadership, h, hzero]
  · simp [getMaternalMortality, h, hzero]
  · simp [getContraceptiveAccess, h, hzero]
  · simp [getWorkforceParticipation, h, hzero]

/-- Witness for C9: with an upstream returning a zero-valued
observation, the pay-gap and leadership normalizers return the fallback
entries. -/
theorem c9_zero_is_absent_witness :
    obsZero.value = some 0 ∧
    fetchWorldBankData oracleZero "GBR" "SL.EMP.WORK.FE.WE.ZS" = some obsZero ∧
    getPayGap oracleZero "GBR" = getFallbackPayGap "GBR" ∧
    getLeadership oracleZero "GBR" = getFallbackLeadership "GBR" := by
  have h := c9_zero_is_absent oracleZero "GBR" obsZero rfl
  exact ⟨rfl, rfl, h.1 rfl, h.2.1 rfl⟩

/-- C10: an unknown location string is not rejected by the all-stats,
export and share-card endpoints: the upstream code falls back to
`'WLD'`, global data is served, and a cache entry is written under a key
derived from the raw input string, so distinct unknown strings occupy
distinct cache entries all holding the global snapshot. -/
theorem c10_unknown_location (c : Cache) (now : Nat) (o : Oracle)
    (loc loc2 stat format : String)
    (hne : loc ≠ "") (hunk : countryCodeMap.lookup loc = none)
    (hmiss : ∀ e, c ("stats_" ++ loc) = some e → CACHE_DURATION ≤ now - e.timestamp)
    (hstat : validStats.contains stat = true) :
    (statsHandler c now o loc).response = buildAllStats o "WLD" now ∧
    (statsHandler c now o loc).cache ("stats_" ++ loc)
      = some ⟨buildAllStats o "WLD" now, now⟩ ∧
    (exportHandler c now o loc format).status = 200 ∧
    (exportHandler c now o loc format).cache ("stats_" ++ loc)
      = some ⟨buildAllStats o "WLD" now, now⟩ ∧
    (shareHandler c now o stat loc).status = 200 ∧
    (shareHandler c now o stat loc).cache ("stats_" ++ loc)
      = some ⟨buildAllStats o "WLD" now, now⟩ ∧
    (loc2 ≠ loc → "stats_" ++ loc2 ≠ "stats_" ++ loc) := by
  have hm := getOrFetchStats_miss c now o ("stats_" ++ loc) "WLD" hmiss
  obtain ⟨d, hd⟩ := statsField_isSome (buildAllStats o "WLD" now) stat hstat
  refine ⟨?_, ?_, ?_, ?_, ?_, ?_, ?_⟩
  · simp [statsHandler, hne, hunk, hm]
  · simp [statsHandler, hne, hunk, hm, cachePut_self]
  · simp [exportHandler, hne, hunk, hm]
    split <;> rfl
  · simp [exportHandler, hne, hunk, hm, cachePut_self]
    split <;> simp [cachePut_self]
  · simp [shareHandler, hne, hunk, hm, hd]
  · simp [shareHandler, hne, hunk, hm, hd, cachePut_self]
  · intro h12 hkey
    apply h12
    have hdata := congrArg String.data hkey
    simp only [String.data_append] at hdata
    exact String.ext (List.append_cancel_left hdata)

/-- Witness for C10: two distinct unknown locations produce distinct
keys; `"narnia"` is served the global snapshot with 200 on the share
endpoint. -/
theorem c10_unknown_location_witness :
    ("narnia" : String) ≠ "" ∧ countryCodeMap.lookup "narnia" = none ∧
    validStats.contains "paygap" = true ∧
    (statsHandler emptyCache 0 oracleFail "narnia").response
      = buildAllStats oracleFail "WLD" 0 ∧
    (shareHandler emptyCache 0 oracleFail "paygap" "narnia").status = 200 ∧
    ("stats_" ++ "oz" ≠ "stats_" ++ "narnia") := by
  have h := c10_unknown_location emptyCache 0 oracleFail "narnia" "oz" "paygap" "csv"
    (by decide) (by rfl) (fun e he => Option.noConfusion he) (by decide)
  exact ⟨by decide, by rfl, by decide, h.1, h.2.2.2.2.1, h.2.2.2.2.2.2 (by decide)⟩

/-- C5 counterexample: the badge endpoint's invalid-metric error
response (status 400) carries the 24-hour `Cache-Control` value, not the
one-hour value the claim asserts for every error response. -/
theorem c5_cache_control_counterexample :
    (badgeHandler emptyCache 0 oracleFail "bogus" "global").status = 400 ∧
    (badgeHandler emptyCache 0 oracleFail "bogus" "global").cacheControl
      = "public, max-age=86400" ∧
    ("public, max-age=86400" : String) ≠ "public, max-age=3600" :=
  ⟨rfl, rfl, by decide⟩

/-- C5 (amended): every response of the SVG badge endpoint — success,
invalid metric, invalid location or stat-not-found — advertises the
24-hour public cache lifetime; on the PNG badge endpoint only the
internal-failure (500) path advertises the 1-hour lifetime and every
other response advertises the 24-hour lifetime. -/
theorem c5_amended_cache_control (c : Cache) (now : Nat) (o : Oracle)
    (raster : String → Option (List Nat)) (stat country : String) :
    (badgeHandler c now o stat country).cacheControl = "public, max-age=86400" ∧
    (((badgePngHandler c now o raster stat country).status = 500 ∧
      (badgePngHandler c now o raster stat country).cacheControl = "public, max-age=3600") ∨
     ((badgePngHandler c now o raster stat country).status ≠ 500 ∧
      (badgePngHandler c now o raster stat country).cacheControl
        = "public, max-age=86400")) := by
  constructor
  · unfold badgeHandler
    dsimp only
    repeat' split
    all_goals rfl
  · unfold badgePngHandler
    dsimp only
    repeat' split
    all_goals simp

/-- C8 counterexample: a present pay-gap observation with employment
ratio 0 does not produce the claimed `round(100 - 0) = 100` percent
value; truthiness sends it to the fallback entry instead. -/
theorem c8_paygap_counterexample :
    fetchWorldBankData oracleZero "WLD" "SL.EMP.WORK.FE.WE.ZS" = some obsZero ∧
    obsZero.value = some 0 ∧
    getPayGap oracleZero "WLD" = getFallbackPayGap "WLD" ∧
    (getPayGap oracleZero "WLD").value = "16%" ∧
    (getPayGap oracleZero "WLD").value ≠ intStr (jsRound ((100 : ℚ) - 0)) ++ "%" := by
  refine ⟨rfl, rfl, rfl, rfl, ?_⟩
  have h100 : jsRound ((100 : ℚ) - 0) = 100 := by norm_num [jsRound]
  rw [h100]
  decide

/-- C8 (amended): whenever the pay-gap fetch yields a present
observation with nonzero numeric employment ratio `r`, the normalizer
returns value `round(100 - r)` followed by a percent sign, a detail
sentence interpolating the same rounded number and the location's
display name, the observation date as year, and the fixed source
string. -/
theorem c8_amended_paygap (o : Oracle) (cc : String) (data : Obs) (r : ℚ)
    (hf : fetchWorldBankData o cc "SL.EMP.WORK.FE.WE.ZS" = some data)
    (hv : data.value = some r) (hr : r ≠ 0) :
    getPayGap o cc =
      { value := intStr (jsRound (100 - r)) ++ "%",
        detail := "Gender pay gap: " ++ intStr (jsRound (100 - r)) ++ "% ("
          ++ getLocationName cc ++ ")",
        year := some data.date,
        source := some "World Bank / ILO" } := by
  simp [getPayGap, hf, hv, hr]

/-- Witness for the amended C8: ratio 54 for the US yields a 46 percent
formatted statistic with the observation date and fixed source. -/
theorem c8_amended_paygap_witness :
    fetchWorldBankData oracle54 "USA" "SL.EMP.WORK.FE.WE.ZS" = some obs54 ∧
    obs54.value = some 54 ∧ ((54 : ℚ) ≠ 0) ∧
    getPayGap oracle54 "USA" =
      { value := "46%", detail := "Gender pay gap: 46% (US)",
        year := some "2023", source := some "World Bank / ILO" } := by
  refine ⟨rfl, rfl, by decide, ?_⟩
  have h := c8_amended_paygap oracle54 "USA" obs54 54 rfl rfl (by decide)
  have h46 : jsRound (100 - (54 : ℚ)) = 46 := by norm_num [jsRound]
  rw [h, h46]
  decide

/-! ### String nonemptiness helpers -/

theorem append_ne_empty_right (a b : String) (hb : b ≠ "") : a ++ b ≠ "" := by
  intro h
  apply hb
  have hd := congrArg String.data h
  simp only [String.data_append] at hd
  obtain ⟨-, hb'⟩ := List.append_eq_nil.mp hd
  cases b with
  | mk l => cases hb'; rfl

theorem append_ne_empty_left (a b : String) (ha : a ≠ "") : a ++ b ≠ "" := by
  intro h
  apply ha
  have hd := congrArg String.data h
  simp only [String.data_append] at hd
  obtain ⟨ha', -⟩ := List.append_eq_nil.mp hd
  cases a with
  | mk l => cases ha'; rfl

theorem toDigitsCore_succ_length (b fuel n : Nat) (ds : List Char) :
    ds.length + 1 ≤ (Nat.toDigitsCore b (fuel + 1) n ds).length := by
  induction fuel generalizing n ds with
  | zero =>
    rw [Nat.toDigitsCore.eq_def]
    dsimp only
    split <;> simp [Nat.toDigitsCore]
  | succ fuel ih =>
    rw [Nat.toDigitsCore.eq_def]
    dsimp only
    split
    · simp
    · have := ih (n / b) (Nat.digitChar (n % b) :: ds)
      simp only [List.length_cons] at this
      omega

theorem natRepr_ne_empty (n : Nat) : Nat.repr n ≠ "" := by
  have hlen : 1 ≤ (Nat.repr n).length := by
    simpa [Nat.repr, Nat.toDigits, String.length, List.asString] using
      toDigitsCore_succ_length 10 n n []
  intro h
  rw [h] at hlen
  exact absurd hlen (by decide)

theorem intStr_ne_empty (n : Int) : intStr n ≠ "" := by
  cases n with
  | ofNat m => exact natRepr_ne_empty m
  | negSucc m => exact append_ne_empty_left "-" _ (by decide)

/-! ### Fallback-table field facts -/

theorem fallbackPayGap_fields (cc : String) :
    (getFallbackPayGap cc).value ≠ "" ∧ (getFallbackPayGap cc).detail ≠ "" := by
  unfold getFallbackPayGap
  dsimp only
  repeat' split
  all_goals exact ⟨by dsimp only; decide, append_ne_empty_right _ _ (by decide)⟩

theorem fallbackLeadership_fields (cc : String) :
    (getFallbackLeadership cc).value ≠ "" ∧ (getFallbackLeadership cc).detail ≠ "" := by
  unfold getFallbackLeadership
  dsimp only
  repeat' split
  all_goals exact ⟨by dsimp only; decide, append_ne_empty_right _ _ (by decide)⟩

theorem fallbackMaternal_fields (cc : String) :
    (getFallbackMaternalMortality cc).value ≠ ""
      ∧ (getFallbackMaternalMortality cc).detail ≠ "" := by
  unfold getFallbackMaternalMortality
  dsimp only
  repeat' split
  all_goals exact ⟨by dsimp only; decide, append_ne_empty_right _ _ (by decide)⟩

theorem fallbackContraceptive_fields (cc : String) :
    (getFallbackContraceptiveAccess cc).value ≠ ""
      ∧ (getFallbackContraceptiveAccess cc).detail ≠ "" := by
  unfold getFallbackContraceptiveAccess
  dsimp only
  repeat' split
  all_goals exact ⟨by dsimp only; decide, append_ne_empty_right _ _ (by decide)⟩

theorem fallbackWorkforce_fields (cc : String) :
    (getFallbackWorkforceParticipation cc).value ≠ ""
      ∧ (getFallbackWorkforceParticipation cc).detail ≠ "" := by
  unfold getFallbackWorkforceParticipation
  dsimp only
  repeat' split
  all_goals first
  | exact ⟨by dsimp only; decide, append_ne_empty_right _ _ (by decide)⟩
  | exact ⟨by dsimp only; decide, by dsimp only; decide⟩

/-! ### Per-metric totality lemmas -/

theorem payGap_total (o : Oracle) (cc : String) :
    (getPayGap o cc).value ≠ "" ∧ (getPayGap o cc).detail ≠ "" ∧
    (fetchWorldBankData o cc "SL.EMP.WORK.FE.WE.ZS" = none →
      getPayGap o cc = getFallbackPayGap cc) := by
  cases hf : fetchWorldBankData o cc "SL.EMP.WORK.FE.WE.ZS" with
  | none =>
    have hfb := fallbackPayGap_fields cc
    refine ⟨?_, ?_, fun _ => by simp [getPayGap, hf]⟩
    · simp only [getPayGap, hf]; exact hfb.1
    · simp only [getPayGap, hf]; exact hfb.2
  | some data =>
    cases hv : data.value with
    | none =>
      have hfb := fallbackPayGap_fields cc
      refine ⟨?_, ?_, fun h => Option.noConfusion h⟩
      · simp only [getPayGap, hf, hv]; exact hfb.1
      · simp only [getPayGap, hf, hv]; exact hfb.2
    | some r =>
      by_cases hr : r = 0
      · have hfb := fallbackPayGap_fields cc
        have hcond : ¬(r ≠ 0) := by simp [hr]
        refine ⟨?_, ?_, fun h => Option.noConfusion h⟩
        · simp only [getPayGap, hf, hv, if_neg hcond]; exact hfb.1
        · simp only [getPayGap, hf, hv, if_neg hcond]; exact hfb.2
      · refine ⟨?_, ?_, fun h => Option.noConfusion h⟩
        · simp only [getPayGap, hf, hv, if_pos hr]
          exact append_ne_empty_right _ _ (by decide)
        · simp only [getPayGap, hf, hv, if_pos hr]
          exact append_ne_empty_right _ _ (by decide)

theorem leadership_total (o : Oracle) (cc : String) :
    (getLeadership o cc).value ≠ "" ∧ (getLeadership o cc).detail ≠ "" ∧
    (fetchWorldBankData o cc "SG.GEN.PARL.ZS" = none →
      getLeadership o cc = getFallbackLeadership cc) := by
  cases hf : fetchWorldBankData o cc "SG.GEN.PARL.ZS" with
  | none =>
    have hfb := fallbackLeadership_fields cc
    refine ⟨?_, ?_, fun _ => by simp [getLeadership, hf]⟩
    · simp only [getLeadership, hf]; exact hfb.1
    · simp only [getLeadership, hf]; exact hfb.2
  | some data =>
    cases hv : data.value with
    | none =>
      have hfb := fallbackLeadership_fields cc
      refine ⟨?_, ?_, fun h => Option.noConfusion h⟩
      · simp only [getLeadership, hf, hv]; exact hfb.1
      · simp only [getLeadership, hf, hv]; exact hfb.2
    | some r =>
      by_cases hr : r = 0
      · have hfb := fallbackLeadership_fields cc
        have hcond : ¬(r ≠ 0) := by simp [hr]
        refine ⟨?_, ?_, fun h => Option.noConfusion h⟩
        · simp only [getLeadership, hf, hv, if_neg hcond]; exact hfb.1
        · simp only [getLeadership, hf, hv, if_neg hcond]; exact hfb.2
      · refine ⟨?_, ?_, fun h => Option.noConfusion h⟩
        · simp only [getLeadership, hf, hv, if_pos hr]
          exact append_ne_empty_right _ _ (by decide)
        · simp only [getLeadership, hf, hv, if_pos hr]
          exact append_ne_empty_right _ _ (by decide)

theorem maternal_total (o : Oracle) (cc : String) :
    (getMaternalMortality o cc).value ≠ "" ∧ (getMaternalMortality o cc).detail ≠ "" ∧
    (fetchWorldBankData o cc "SH.STA.MMRT" = none →
      getMaternalMortality o cc = getFallbackMaternalMortality cc) := by
  cases hf : fetchWorldBankData o cc "SH.STA.MMRT" with
  | none =>
    have hfb := fallbackMaternal_fields cc
    refine ⟨?_, ?_, fun _ => by simp [getMaternalMortality, hf]⟩
    · simp only [getMaternalMortality, hf]; exact hfb.1
    · simp only [getMaternalMortality, hf]; exact hfb.2
  | some data =>
    cases hv : data.value with
    | none =>
      have hfb := fallbackMaternal_fields cc
      refine ⟨?_, ?_, fun h => Option.noConfusion h⟩
      · simp only [getMaternalMortality, hf, hv]; exact hfb.1
      · simp only [getMaternalMortality, hf, hv]; exact hfb.2
    | some r =>
      by_cases hr : r = 0
      · have hfb := fallbackMaternal_fields cc
        have hcond : ¬(r ≠ 0) := by simp [hr]
        refine ⟨?_, ?_, fun h => Option.noConfusion h⟩
        · simp only [getMaternalMortality, hf, hv, if_neg hcond]; exact hfb.1
        · simp only [getMaternalMortality, hf, hv, if_neg hcond]; exact hfb.2
      · refine ⟨?_, ?_, fun h => Option.noConfusion h⟩
        · simp only [getMaternalMortality, hf, hv, if_pos hr]
          exact intStr_ne_empty _
        · simp only [getMaternalMortality, hf, hv, if_pos hr]
          exact append_ne_empty_right _ _ (by decide)

theorem contraceptive_total (o : Oracle) (cc : String) :
    (getContraceptiveAccess o cc).value ≠ "" ∧ (getContraceptiveAccess o cc).detail ≠ "" ∧
    (fetchWorldBankData o cc "SP.DYN.CONM.ZS" = none →
      getContraceptiveAccess o cc = getFallbackContraceptiveAccess cc) := by
  cases hf : fetchWorldBankData o cc "SP.DYN.CONM.ZS" with
  | none =>
    have hfb := fallbackContraceptive_fields cc
    refine ⟨?_, ?_, fun _ => by simp [getContraceptiveAccess, hf]⟩
    · simp only [getContraceptiveAccess, hf]; exact hfb.1
    · simp only [getContraceptiveAccess, hf]; exact hfb.2
  | some data =>
    cases hv : data.value with
    | none =>
      have hfb := fallbackContraceptive_fields cc
      refine ⟨?_, ?_, fun h => Option.noConfusion h⟩
      · simp only [getContraceptiveAccess, hf, hv]; exact hfb.1
      · simp only [getContraceptiveAccess, hf, hv]; exact hfb.2
    | some r =>
      by_cases hr : r = 0
      · have hfb := fallbackContraceptive_fields cc
        have hcond : ¬(r ≠ 0) := by simp [hr]
        refine ⟨?_, ?_, fun h => Option.noConfusion h⟩
        · simp only [getContraceptiveAccess, hf, hv, if_neg hcond]; exact hfb.1
        · simp only [getContraceptiveAccess, hf, hv, if_neg hcond]; exact hfb.2
      · refine ⟨?_, ?_, fun h => Option.noConfusion h⟩
        · simp only [getContraceptiveAccess, hf, hv, if_pos hr]
          exact append_ne_empty_right _ _ (by decide)
        · simp only [getContraceptiveAccess, hf, hv, if_pos hr]
          exact append_ne_empty_right _ _ (by decide)

theorem workforce_total (o : Oracle) (cc : String) :
    (getWorkforceParticipation o cc).value ≠ ""
      ∧ (getWorkforceParticipation o cc).detail ≠ "" ∧
    (fetchWorldBankData o cc "SL.TLF.TOTL.FE.ZS" = none →
      getWorkforceParticipation o cc = getFallbackWorkforceParticipation cc) := by
  cases hf : fetchWorldBankData o cc "SL.TLF.TOTL.FE.ZS" with
  | none =>
    have hfb := fallbackWorkforce_fields cc
    refine ⟨?_, ?_, fun _ => by simp [getWorkforceParticipation, hf]⟩
    · simp only [getWorkforceParticipation, hf]; exact hfb.1
    · simp only [getWorkforceParticipation, hf]; exact hfb.2
  | some data =>
    cases hv : data.value with
    | none =>
      have hfb := fallbackWorkforce_fields cc
      refine ⟨?_, ?_, fun h => Option.noConfusion h⟩
      · simp only [getWorkforceParticipation, hf, hv]; exact hfb.1
      · simp only [getWorkforceParticipation, hf, hv]; exact hfb.2
    | some r =>
      by_cases hr : r = 0
      · have hfb := fallbackWorkforce_fields cc
        have hcond : ¬(r ≠ 0) := by simp [hr]
        refine ⟨?_, ?_, fun h => Option.noConfusion h⟩
        · simp only [getWorkforceParticipation, hf, hv, if_neg hcond]; exact hfb.1
        · simp only [getWorkforceParticipation, hf, hv, if_neg hcond]; exact hfb.2
      · refine ⟨?_, ?_, fun h => Option.noConfusion h⟩
        · simp only [getWorkforceParticipation, hf, hv, if_pos hr]
          exact append_ne_empty_right _ _ (by decide)
        · simp only [getWorkforceParticipation, hf, hv, if_pos hr]
          exact append_ne_empty_right _ _ (by decide)

/-- C4: for every upstream outcome every metric normalizer returns a
statistic with nonempty value and detail (it is a total function: no
exception can escape), and whenever the fetch resolves to the absence
signal the fallback-table entry for the requested location (defaulting
to the `'WLD'` entry) is returned. -/
theorem c4_normalizer_total (o : Oracle) (cc : String) :
    ((getPayGap o cc).value ≠ "" ∧ (getPayGap o cc).detail ≠ "" ∧
      (fetchWorldBankData o cc "SL.EMP.WORK.FE.WE.ZS" = none →
        getPayGap o cc = getFallbackPayGap cc)) ∧
    ((getLeadership o cc).value ≠ "" ∧ (getLeadership o cc).detail ≠ "" ∧
      (fetchWorldBankData o cc "SG.GEN.PARL.ZS" = none →
        getLeadership o cc = getFallbackLeadership cc)) ∧
    ((getMaternalMortality o cc).value ≠ "" ∧ (getMaternalMortality o cc).detail ≠ "" ∧
      (fetchWorldBankData o cc "SH.STA.MMRT" = none →
        getMaternalMortality o cc = getFallbackMaternalMortality cc)) ∧
    ((getContraceptiveAccess o cc).value ≠ "" ∧ (getContraceptiveAccess o cc).detail ≠ "" ∧
      (fetchWorldBankData o cc "SP.DYN.CONM.ZS" = none →
        getContraceptiveAccess o cc = getFallbackContraceptiveAccess cc)) ∧
    ((getWorkforceParticipation o cc).value ≠ ""
      ∧ (getWorkforceParticipation o cc).detail ≠ "" ∧
      (fetchWorldBankData o cc "SL.TLF.TOTL.FE.ZS" = none →
        getWorkforceParticipation o cc = getFallbackWorkforceParticipation cc)) :=
  ⟨payGap_total o cc, leadership_total o cc, maternal_total o cc,
    contraceptive_total o cc, workforce_total o cc⟩

/-- Witness for C4: with a failing upstream, the pay-gap normalizer for
the US returns the fallback entry, whose value is nonempty. -/
theorem c4_normalizer_total_witness :
    fetchWorldBankData oracleFail "USA" "SL.EMP.WORK.FE.WE.ZS" = none ∧
    (getPayGap oracleFail "USA").value ≠ "" ∧
    getPayGap oracleFail "USA" = getFallbackPayGap "USA" := by
  have h := c4_normalizer_total oracleFail "USA"
  exact ⟨rfl, h.1.1, h.1.2.2 rfl⟩

/-- C7: the trend-series builder drops exactly the null-valued upstream
observations (its output is a permutation of the non-null rows mapped to
points) and outputs the points in ascending year order: whenever the
years of two points in output order both parse as integers, the earlier
point's year is at most the later one's. -/
theorem c7_trend_series (rows : List Obs) :
    (buildTrendData rows).Perm (rows.filterMap mkTrendPoint) ∧
    List.Pairwise
      (fun a b => ∀ x y, parseIntJS a.year = some x → parseIntJS b.year = some y → x ≤ y)
      (buildTrendData rows) := by
  constructor
  · exact List.mergeSort_perm _ _
  · have hs := @List.sorted_mergeSort TrendPoint
      (fun a b : TrendPoint => decide (trendKey a ≤ trendKey b))
      (fun a b c hab hbc => by
        simp only [decide_eq_true_eq] at *
        exact le_trans hab hbc)
      (fun a b => by
        simp only [Bool.or_eq_true, decide_eq_true_eq]
        exact Int.le_total _ _)
      (rows.filterMap mkTrendPoint)
    unfold buildTrendData
    refine hs.imp ?_
    intro a b hab x y hx hy
    have hk : trendKey a ≤ trendKey b := by simpa using hab
    simpa [trendKey, hx, hy] using hk

/-! ### CSV parser lemmas -/

theorem parseRowAux_plain (f rest acc : List Char)
    (hf : ∀ ch ∈ f, ch ≠ ',' ∧ ch ≠ '"') :
    parseRowAux (f ++ ',' :: rest) acc = (acc.reverse ++ f) :: parseRowAux rest [] := by
  induction f generalizing acc with
  | nil => simp [parseRowAux]
  | cons x xs ih =>
    have hx := hf x (List.mem_cons_self x xs)
    have ht : ∀ ch ∈ xs, ch ≠ ',' ∧ ch ≠ '"' :=
      fun ch hch => hf ch (List.mem_cons_of_mem _ hch)
    have ih' := fun acc => ih acc ht
    simp [parseRowAux, hx.1, hx.2, ih']

theorem parseRowAux_last (f acc : List Char)
    (hf : ∀ ch ∈ f, ch ≠ ',' ∧ ch ≠ '"') :
    parseRowAux f acc = [acc.reverse ++ f] := by
  induction f generalizing acc with
  | nil => simp [parseRowAux]
  | cons x xs ih =>
    have hx := hf x (List.mem_cons_self x xs)
    have ht : ∀ ch ∈ xs, ch ≠ ',' ∧ ch ≠ '"' :=
      fun ch hch => hf ch (List.mem_cons_of_mem _ hch)
    have ih' := fun acc => ih acc ht
    simp [parseRowAux, hx.1, hx.2, ih']

theorem parseQuoted_through (d rest acc : List Char) (hd : ∀ ch ∈ d, ch ≠ '"') :
    parseQuoted (d ++ '"' :: rest) acc = parseRowAux rest (d.reverse ++ acc) := by
  induction d generalizing acc with
  | nil => simp [parseQuoted]
  | cons x xs ih =>
    have hx := hd x (List.mem_cons_self x xs)
    have ht : ∀ ch ∈ xs, ch ≠ '"' := fun ch hch => hd ch (List.mem_cons_of_mem _ hch)
    have ih' := fun acc => ih acc ht
    simp [parseQuoted, hx, ih']

theorem parseRowAux_quoted_field (d rest acc : List Char) (hd : ∀ ch ∈ d, ch ≠ '"') :
    parseRowAux ('"' :: (d ++ '"' :: ',' :: rest)) acc
      = (acc.reverse ++ d) :: parseRowAux rest [] := by
  have h1 : parseRowAux ('"' :: (d ++ '"' :: ',' :: rest)) acc
      = parseQuoted (d ++ '"' :: ',' :: rest) acc := by
    simp [parseRowAux]
  rw [h1, parseQuoted_through d _ acc hd]
  simp [parseRowAux]

theorem parseFields_csvRow (name : String) (st : Statistic)
    (hname : ∀ ch ∈ name.data, ch ≠ ',' ∧ ch ≠ '"')
    (hv : ∀ ch ∈ st.value.data, ch ≠ ',' ∧ ch ≠ '"')
    (hd : ∀ ch ∈ st.detail.data, ch ≠ '"')
    (hy : ∀ ch ∈ (st.year.getD "").data, ch ≠ ',' ∧ ch ≠ '"')
    (hs : ∀ ch ∈ (st.source.getD "").data, ch ≠ ',' ∧ ch ≠ '"') :
    parseFields (csvRow name st).data
      = [name.data, st.value.data, st.detail.data,
         (st.year.getD "").data, (st.source.getD "").data] := by
  have hrow : (csvRow name st).data
      = name.data ++ ',' :: (st.value.data ++ ',' :: '"'
          :: (st.detail.data ++ '"' :: ',' :: ((st.year.getD "").data
            ++ ',' :: (st.source.getD "").data))) := by
    simp [csvRow, String.data_append]
  unfold parseFields
  rw [hrow, parseRowAux_plain _ _ _ hname]
  rw [parseRowAux_plain _ _ _ hv]
  rw [parseRowAux_quoted_field _ _ _ hd]
  rw [parseRowAux_plain _ _ _ hy]
  rw [parseRowAux_last _ _ hs]
  simp

theorem splitOnChar_append (c : Char) (a rest : List Char) (ha : c ∉ a) :
    splitOnChar c (a ++ c :: rest) = a :: splitOnChar c rest := by
  induction a with
  | nil => simp [splitOnChar]
  | cons x xs ih =>
    have hx : ¬(x = c) := fun he => ha (he ▸ List.mem_cons_self x xs)
    have ih' := ih (fun hm => ha (List.mem_cons_of_mem _ hm))
    simp [splitOnChar, hx, ih']

theorem splitOnChar_single (c : Char) (a : List Char) (ha : c ∉ a) :
    splitOnChar c a = [a] := by
  induction a with
  | nil => rfl
  | cons x xs ih =>
    have hx : ¬(x = c) := fun he => ha (he ▸ List.mem_cons_self x xs)
    have ih' := ih (fun hm => ha (List.mem_cons_of_mem _ hm))
    simp [splitOnChar, hx, ih']

theorem splitOnChar_joinLines_six (l0 l1 l2 l3 l4 l5 : String)
    (h0 : '\n' ∉ l0.data) (h1 : '\n' ∉ l1.data) (h2 : '\n' ∉ l2.data)
    (h3 : '\n' ∉ l3.data) (h4 : '\n' ∉ l4.data) (h5 : '\n' ∉ l5.data) :
    splitOnChar '\n' (joinLines [l0, l1, l2, l3, l4, l5]).data
      = [l0.data, l1.data, l2.data, l3.data, l4.data, l5.data] := by
  have e : (joinLines [l0, l1, l2, l3, l4, l5]).data
      = l0.data ++ '\n' :: (l1.data ++ '\n' :: (l2.data ++ '\n'
          :: (l3.data ++ '\n' :: (l4.data ++ '\n' :: l5.data)))) := by
    simp [joinLines, String.data_append]
  rw [e, splitOnChar_append _ _ _ h0, splitOnChar_append _ _ _ h1,
    splitOnChar_append _ _ _ h2, splitOnChar_append _ _ _ h3,
    splitOnChar_append _ _ _ h4, splitOnChar_single _ _ h5]

theorem csvPlainOk_fields (s : String) (h : csvPlainOk s = true) :
    ∀ ch ∈ s.data, ch ≠ ',' ∧ ch ≠ '"' := by
  simp only [csvPlainOk, List.all_eq_true, decide_eq_true_eq] at h
  exact fun ch hm => ⟨(h ch hm).1, (h ch hm).2.1⟩

theorem csvDetailOk_fields (s : String) (h : csvDetailOk s = true) :
    ∀ ch ∈ s.data, ch ≠ '"' := by
  simp only [csvDetailOk, List.all_eq_true, decide_eq_true_eq] at h
  exact fun ch hm => (h ch hm).1

theorem csvPlainOk_noNl (s : String) (h : csvPlainOk s = true) : '\n' ∉ s.data := by
  simp only [csvPlainOk, List.all_eq_true, decide_eq_true_eq] at h
  exact fun hm => (h _ hm).2.2 rfl

theorem csvDetailOk_noNl (s : String) (h : csvDetailOk s = true) : '\n' ∉ s.data := by
  simp only [csvDetailOk, List.all_eq_true, decide_eq_true_eq] at h
  exact fun hm => (h _ hm).2 rfl

theorem csvStatOk_fields (st : Statistic) (h : csvStatOk st = true) :
    (∀ ch ∈ st.value.data, ch ≠ ',' ∧ ch ≠ '"') ∧
    (∀ ch ∈ st.detail.data, ch ≠ '"') ∧
    (∀ ch ∈ (st.year.getD "").data, ch ≠ ',' ∧ ch ≠ '"') ∧
    (∀ ch ∈ (st.source.getD "").data, ch ≠ ',' ∧ ch ≠ '"') := by
  simp only [csvStatOk, Bool.and_eq_true] at h
  obtain ⟨⟨⟨hv, hd⟩, hy⟩, hs⟩ := h
  exact ⟨csvPlainOk_fields _ hv, csvDetailOk_fields _ hd,
    csvPlainOk_fields _ hy, csvPlainOk_fields _ hs⟩

theorem csvStatOk_noNl (st : Statistic) (h : csvStatOk st = true) :
    '\n' ∉ st.value.data ∧ '\n' ∉ st.detail.data ∧
    '\n' ∉ (st.year.getD "").data ∧ '\n' ∉ (st.source.getD "").data := by
  simp only [csvStatOk, Bool.and_eq_true] at h
  obtain ⟨⟨⟨hv, hd⟩, hy⟩, hs⟩ := h
  exact ⟨csvPlainOk_noNl _ hv, csvDetailOk_noNl _ hd,
    csvPlainOk_noNl _ hy, csvPlainOk_noNl _ hs⟩

theorem csvRow_noNl (name : String) (st : Statistic)
    (hn : '\n' ∉ name.data)
    (h1 : '\n' ∉ st.value.data) (h2 : '\n' ∉ st.detail.data)
    (h3 : '\n' ∉ (st.year.getD "").data) (h4 : '\n' ∉ (st.source.getD "").data) :
    '\n' ∉ (csvRow name st).data := by
  simp [csvRow, String.data_append, hn, h1, h2, h3, h4]

set_option maxRecDepth 4000 in
/-- C6 counterexample: for a snapshot whose pay-gap value contains a
comma, the export does not quote that field (only the detail column is
ever quoted), so parsing its data row does not recover the snapshot's
fields: the row splits into six fields instead of five. -/
theorem c6_csv_counterexample :
    (csvParse (exportCsv badSnap).data)[1]?
      ≠ some ["Gender Pay Gap".data, badSnap.paygap.value.data, badSnap.paygap.detail.data,
          (badSnap.paygap.year.getD "").data, (badSnap.paygap.source.getD "").data] ∧
    (parseFields (csvRow "Gender Pay Gap" badStat).data).length = 6 := by
  refine ⟨by decide, by decide⟩

/-- C6 (amended): the CSV export is a header row plus exactly five data
rows in the fixed metric order, whose parsed Value, Detail, Year and
Source columns equal the snapshot's fields (absent year or source
exported as the empty string), provided value, year and source contain
no comma, double quote or newline and the always-quoted detail contains
no double quote or newline. -/
theorem c6_amended_csv (s : AllStats) (h : csvStatsOk s = true) :
    csvParse (exportCsv s).data
      = [["Metric".data, "Value".data, "Detail".data, "Year".data, "Source".data],
         ["Gender Pay Gap".data, s.paygap.value.data, s.paygap.detail.data,
          (s.paygap.year.getD "").data, (s.paygap.source.getD "").data],
         ["Leadership Representation".data, s.leadership.value.data, s.leadership.detail.data,
          (s.leadership.year.getD "").data, (s.leadership.source.getD "").data],
         ["Maternal Mortality".data, s.maternal.value.data, s.maternal.detail.data,
          (s.maternal.year.getD "").data, (s.maternal.source.getD "").data],
         ["Contraceptive Access".data, s.healthcare.value.data, s.healthcare.detail.data,
          (s.healthcare.year.getD "").data, (s.healthcare.source.getD "").data],
         ["Workforce Participation".data, s.workforce.value.data, s.workforce.detail.data,
          (s.workforce.year.getD "").data, (s.workforce.source.getD "").data]] := by
  simp only [csvStatsOk, Bool.and_eq_true] at h
  obtain ⟨⟨⟨⟨hp, hl⟩, hm⟩, hh⟩, hw⟩ := h
  have fp := csvStatOk_fields _ hp
  have fl := csvStatOk_fields _ hl
  have fm := csvStatOk_fields _ hm
  have fh := csvStatOk_fields _ hh
  have fw := csvStatOk_fields _ hw
  have np := csvStatOk_noNl _ hp
  have nl := csvStatOk_noNl _ hl
  have nm := csvStatOk_noNl _ hm
  have nh := csvStatOk_noNl _ hh
  have nw := csvStatOk_noNl _ hw
  have hsplit : splitOnChar '\n' (exportCsv s).data
      = [csvHeader.data,
         (csvRow "Gender Pay Gap" s.paygap).data,
         (csvRow "Leadership Representation" s.leadership).data,
         (csvRow "Maternal Mortality" s.maternal).data,
         (csvRow "Contraceptive Access" s.healthcare).data,
         (csvRow "Workforce Participation" s.workforce).data] := by
    unfold exportCsv csvLines
    exact splitOnChar_joinLines_six _ _ _ _ _ _ (by decide)
      (csvRow_noNl _ _ (by decide) np.1 np.2.1 np.2.2.1 np.2.2.2)
      (csvRow_noNl _ _ (by decide) nl.1 nl.2.1 nl.2.2.1 nl.2.2.2)
      (csvRow_noNl _ _ (by decide) nm.1 nm.2.1 nm.2.2.1 nm.2.2.2)
      (csvRow_noNl _ _ (by decide) nh.1 nh.2.1 nh.2.2.1 nh.2.2.2)
      (csvRow_noNl _ _ (by decide) nw.1 nw.2.1 nw.2.2.1 nw.2.2.2)
  unfold csvParse
  rw [hsplit]
  simp only [List.map_cons, List.map_nil]
  rw [parseFields_csvRow _ _ (by decide) fp.1 fp.2.1 fp.2.2.1 fp.2.2.2,
    parseFields_csvRow _ _ (by decide) fl.1 fl.2.1 fl.2.2.1 fl.2.2.2,
    parseFields_csvRow _ _ (by decide) fm.1 fm.2.1 fm.2.2.1 fm.2.2.2,
    parseFields_csvRow _ _ (by decide) fh.1 fh.2.1 fh.2.2.1 fh.2.2.2,
    parseFields_csvRow _ _ (by decide) fw.1 fw.2.1 fw.2.2.1 fw.2.2.2]
  have hhd : parseFields csvHeader.data
      = ["Metric".data, "Value".data, "Detail".data, "Year".data, "Source".data] := by
    decide
  rw [hhd]

/-- Witness for the amended C6: the all-fallback global snapshot
satisfies the side conditions and its export parses back to its exact
fields. -/
theorem c6_amended_csv_witness :
    csvStatsOk snapG = true ∧
    csvParse (exportCsv snapG).data
      = [["Metric".data, "Value".data, "Detail".data, "Year".data, "Source".data],
         ["Gender Pay Gap".data, snapG.paygap.value.data, snapG.paygap.detail.data,
          (snapG.paygap.year.getD "").data, (snapG.paygap.source.getD "").data],
         ["Leadership Representation".data, snapG.leadership.value.data,
          snapG.leadership.detail.data, (snapG.leadership.year.getD "").data,
          (snapG.leadership.source.getD "").data],
         ["Maternal Mortality".data, snapG.maternal.value.data, snapG.maternal.detail.data,
          (snapG.maternal.year.getD "").data, (snapG.maternal.source.getD "").data],
         ["Contraceptive Access".data, snapG.healthcare.value.data,
          snapG.healthcare.detail.data, (snapG.healthcare.year.getD "").data,
          (snapG.healthcare.source.getD "").data],
         ["Workforce Participation".data, snapG.workforce.value.data,
          snapG.workforce.detail.data, (snapG.workforce.year.getD "").data,
          (snapG.workforce.source.getD "").data]] :=
  ⟨by decide, c6_amended_csv snapG (by decide)⟩

end MTG
